import Mathlib

set_option maxHeartbeats 1000000

/-!
Verification of `pelican/tools/pelican_quickstart_br.py`.

The script is an interactive scaffolding tool.  We shallowly embed it:
standard input is a list of lines, console output is a list of printed
strings, Python values are the inductive `PyVal`, and each prompting
function becomes a function from the remaining input lines to a
`StepRes` (value produced, input left over, output printed — or
`pending` when the program would still be blocked reading input, or
`raised` when the Python code raises an exception).
-/

/-- Python values that occur in the quickstart script: `None`, strings,
ints, bools, and the one-element tuple `(True,)` used as an opt-in flag. -/
inductive PyVal where
  | none
  | str (s : String)
  | int (n : Int)
  | bool (b : Bool)
  | tuple1 (v : PyVal)
deriving DecidableEq, Repr

/-- Python truthiness (`if value:`) for the values above. -/
def PyVal.truthy : PyVal → Bool
  | .none => false
  | .str s => !s.data.isEmpty
  | .int n => n != 0
  | .bool b => b
  | .tuple1 _ => true

/-- Python `str(value)`, as used by f-string interpolation of prompt
defaults. -/
def PyVal.pyStr : PyVal → String
  | .none => "None"
  | .str s => s
  | .int n => toString n
  | .bool b => if b then "True" else "False"
  | .tuple1 v => "(" ++ v.pyStr ++ ",)"

/-- Python `repr(value)` (simplified: strings are wrapped in single
quotes without escaping; the script only feeds it plain identifiers,
paths and host names). Used for `conf_python` in `main`. -/
def PyVal.pyRepr : PyVal → String
  | .none => "None"
  | .str s => "'" ++ s ++ "'"
  | .int n => toString n
  | .bool b => if b then "True" else "False"
  | .tuple1 v => "(" ++ v.pyRepr ++ ",)"

/-- Python `str.strip()`: drop whitespace from both ends
(modelled on the character list of the string). -/
def pyStrip (s : String) : String :=
  ⟨List.rdropWhile Char.isWhitespace (List.dropWhile Char.isWhitespace s.data)⟩

/-- Python `len(s)` (number of code points). -/
def pyLen (s : String) : Nat := s.data.length

/-- Python `str.lower()` (per-character lowering). -/
def pyLower (s : String) : String := ⟨s.data.map Char.toLower⟩

/-- Python `str.replace(" ", "_")`: the pattern is a single character,
so this is a per-character substitution. -/
def pyReplaceSpace (s : String) : String :=
  ⟨s.data.map (fun c => if c = ' ' then '_' else c)⟩

/-- Python `str.rstrip("\n")`: drop trailing newline characters. -/
def pyRstripNl (s : String) : String :=
  ⟨List.rdropWhile (fun c => c = '\n') s.data⟩

/-- Result of running a piece of the interactive script on a finite
list of input lines. -/
inductive StepRes (α : Type) where
  | ok (v : α) (rest : List String) (out : List String)
  | pending (out : List String)
  | raised (msg : String)
deriving DecidableEq, Repr

/-- Prefix some already-printed console output onto a result. -/
def prependOut {α : Type} (o : List String) : StepRes α → StepRes α
  | .ok v rest o2 => .ok v rest (o ++ o2)
  | .pending o2 => .pending (o ++ o2)
  | .raised m => .raised m

/-- Sequencing: run `r`, and on success continue with `f` on the
remaining input, accumulating printed output. -/
def StepRes.andThen {α β : Type} (r : StepRes α) (f : α → List String → StepRes β) :
    StepRes β :=
  match r with
  | .ok a rest o1 =>
    match f a rest with
    | .ok b rest2 o2 => .ok b rest2 (o1 ++ o2)
    | .pending o2 => .pending (o1 ++ o2)
    | .raised m => .raised m
  | .pending o => .pending o
  | .raised m => .raised m

/-- Map over the produced value. -/
def StepRes.mapv {α β : Type} (r : StepRes α) (f : α → β) : StepRes β :=
  match r with
  | .ok a rest o => .ok (f a) rest o
  | .pending o => .pending o
  | .raised m => .raised m

/-- The `answer` argument of `ask`: in Python it is one of the type
objects `str`, `bool`, `int`, or anything else (unsupported). -/
inductive AnswerKind where
  | str
  | bool
  | int
  | other (name : String)
deriving DecidableEq, Repr

/-- The prompt printed by `input(...)` in the `str` and `int` branches of
`ask`: `f"> {question} [{default}] "` when the default is truthy, else
`f"> {question} "`. -/
def promptWithDefault (question : String) (default : PyVal) : String :=
  if default.truthy then "> " ++ question ++ " [" ++ default.pyStr ++ "] "
  else "> " ++ question ++ " "

/-- The prompt printed in the `bool` branch of `ask`, depending on
whether `default is True`, `default is False`, or neither. -/
def boolPrompt (question : String) (default : PyVal) : String :=
  if default = .bool true then "> " ++ question ++ " (Y/n) "
  else if default = .bool false then "> " ++ question ++ " (y/N) "
  else "> " ++ question ++ " (y/n) "

/-- Truthiness of the Python condition `length and len(r) != length`
(line 107): `length` must be non-`None` and nonzero, and the stripped
input's length must differ from it. -/
def lenRejects : Option Nat → String → Bool
  | Option.none, _ => false
  | some L, r => L != 0 && pyLen r != L

/-- The message `f"A inserção de dados deve ter {length} caracteres"`
(line 108); only ever printed when `length` is a nonzero number. -/
def lenMsg : Option Nat → String
  | some L => "A inserção de dados deve ter " ++ toString L ++ " caracteres"
  | Option.none => "A inserção de dados deve ter None caracteres"

/-- The `answer == str` branch of `ask` (lines 90–112): loop reading a
line, strip it; empty input returns a truthy default or re-prompts with
an error; a truthy `length` constraint rejects input of the wrong
length; otherwise return the stripped line. -/
def askStrLoop (question : String) (default : PyVal) (length : Option Nat) :
    List String → StepRes PyVal
  | [] => .pending [promptWithDefault question default]
  | line :: rest =>
    let r := pyStrip line
    if pyLen r ≤ 0 then
      if default.truthy then
        .ok default rest [promptWithDefault question default]
      else
        prependOut [promptWithDefault question default, "Deve ser inserido um valor"]
          (askStrLoop question default length rest)
    else
      if lenRejects length r then
        prependOut [promptWithDefault question default, lenMsg length]
          (askStrLoop question default length rest)
      else .ok (.str r) rest [promptWithDefault question default]

/-- The `answer == bool` branch of `ask` (lines 114–137): strip and
lower the line; `"y"` and the literal token `"yes / sim"` give `True`;
`"n"` and `"no / nao"` give `False`; empty input gives the default
verbatim; anything else prints a hint and re-prompts. -/
def askBoolLoop (question : String) (default : PyVal) :
    List String → StepRes PyVal
  | [] => .pending [boolPrompt question default]
  | line :: rest =>
    let r := pyLower (pyStrip line)
    if r = "y" ∨ r = "yes / sim" then
      .ok (.bool true) rest [boolPrompt question default]
    else if r = "n" ∨ r = "no / nao" then
      .ok (.bool false) rest [boolPrompt question default]
    else if r = "" then
      .ok default rest [boolPrompt question default]
    else
      prependOut [boolPrompt question default,
          "Responda as perguntas com 'y' para Sim e 'n' para Não"]
        (askBoolLoop question default rest)

/-- Python `int(s)` on an already-stripped string: optional sign
followed by decimal digits. -/
def pyParseInt (s : String) : Option Int :=
  let (sign, digits) :=
    if s.data.take 1 = ['-'] then ((-1 : Int), s.data.drop 1)
    else if s.data.take 1 = ['+'] then ((1 : Int), s.data.drop 1)
    else ((1 : Int), s.data)
  if digits ≠ [] ∧ digits.all Char.isDigit then
    some (sign * (digits.foldl (fun a c => a * 10 + (c.toNat - 48)) 0 : Nat))
  else Option.none

/-- The `answer == int` branch of `ask` (lines 138–157): empty input
returns the default verbatim; a parseable integer is returned; anything
else prints an error and re-prompts. -/
def askIntLoop (question : String) (default : PyVal) :
    List String → StepRes PyVal
  | [] => .pending [promptWithDefault question default]
  | line :: rest =>
    let r := pyStrip line
    if pyLen r = 0 then
      .ok default rest [promptWithDefault question default]
    else
      match pyParseInt r with
      | some n => .ok (.int n) rest [promptWithDefault question default]
      | Option.none =>
        prependOut [promptWithDefault question default, "Deve ser um numero inteiro"]
          (askIntLoop question default rest)

/-- `ask(question, answer, default, length)` (lines 89–159): dispatch on
the `answer` kind; an unsupported kind raises `NotImplementedError`. -/
def ask (question : String) (answer : AnswerKind) (default : PyVal)
    (length : Option Nat) (inputs : List String) : StepRes PyVal :=
  match answer with
  | .str => askStrLoop question default length inputs
  | .bool => askBoolLoop question default inputs
  | .int => askIntLoop question default inputs
  | .other _ => .raised "a variavel `answer` deve ser uma str, bool, ou integer"

/-- Inversion: a `prependOut` that succeeded came from a success of the
underlying result with the same value and remaining input. -/
theorem prependOut_ok {α : Type} {o : List String} {r : StepRes α} {v : α}
    {rest o' : List String} (h : prependOut o r = .ok v rest o') :
    ∃ o2, r = .ok v rest o2 := by
  cases r with
  | ok v2 r2 o2 =>
    simp only [prependOut, StepRes.ok.injEq] at h
    exact ⟨o2, by rw [h.1, h.2.1]⟩
  | pending o2 => simp [prependOut] at h
  | raised m => simp [prependOut] at h

/-- A successful `str`-prompt consumes at least one input line. -/
theorem askStrLoop_ok_length {q : String} {d : PyVal} {len : Option Nat} :
    ∀ {inputs : List String} {v : PyVal} {rest out : List String},
      askStrLoop q d len inputs = .ok v rest out → rest.length < inputs.length := by
  intro inputs
  induction inputs with
  | nil => intro v rest out h; simp [askStrLoop] at h
  | cons line tl ih =>
    intro v rest out h
    simp only [askStrLoop] at h
    split at h
    · split at h
      · injection h with h1 h2 h3
        subst h2; simp
      · obtain ⟨o2, h'⟩ := prependOut_ok h
        exact Nat.lt_trans (ih h') (by simp)
    · split at h
      · obtain ⟨o2, h'⟩ := prependOut_ok h
        exact Nat.lt_trans (ih h') (by simp)
      · injection h with h1 h2 h3
        subst h2; simp

/-- A successful `bool`-prompt consumes at least one input line. -/
theorem askBoolLoop_ok_length {q : String} {d : PyVal} :
    ∀ {inputs : List String} {v : PyVal} {rest out : List String},
      askBoolLoop q d inputs = .ok v rest out → rest.length < inputs.length := by
  intro inputs
  induction inputs with
  | nil => intro v rest out h; simp [askBoolLoop] at h
  | cons line tl ih =>
    intro v rest out h
    simp only [askBoolLoop] at h
    split at h
    · injection h with h1 h2 h3; subst h2; simp
    · split at h
      · injection h with h1 h2 h3; subst h2; simp
      · split at h
        · injection h with h1 h2 h3; subst h2; simp
        · obtain ⟨o2, h'⟩ := prependOut_ok h
          exact Nat.lt_trans (ih h') (by simp)

/-- A successful `int`-prompt consumes at least one input line. -/
theorem askIntLoop_ok_length {q : String} {d : PyVal} :
    ∀ {inputs : List String} {v : PyVal} {rest out : List String},
      askIntLoop q d inputs = .ok v rest out → rest.length < inputs.length := by
  intro inputs
  induction inputs with
  | nil => intro v rest out h; simp [askIntLoop] at h
  | cons line tl ih =>
    intro v rest out h
    simp only [askIntLoop] at h
    split at h
    · injection h with h1 h2 h3; subst h2; simp
    · split at h
      · injection h with h1 h2 h3; subst h2; simp
      · obtain ⟨o2, h'⟩ := prependOut_ok h
        exact Nat.lt_trans (ih h') (by simp)

/-- A successful `ask` consumes at least one input line. -/
theorem ask_ok_length {q : String} {k : AnswerKind} {d : PyVal} {len : Option Nat}
    {inputs : List String} {v : PyVal} {rest out : List String}
    (h : ask q k d len inputs = .ok v rest out) : rest.length < inputs.length := by
  cases k with
  | str => exact askStrLoop_ok_length h
  | bool => exact askBoolLoop_ok_length h
  | int => exact askIntLoop_ok_length h
  | other n => simp [ask] at h

/-- The normalization applied to the timezone answer on line 167:
`r.strip().replace(" ", "_").lower()`. -/
def normalizeTz (s : String) : String := pyLower (pyReplaceSpace (pyStrip s))

/-- Lookup in `tz_dict = {tz.lower(): tz for tz in zoneinfo.available_timezones()}`
(line 164): for duplicate lower-cased keys, the entry built last wins. -/
def tzLookup (tzs : List String) (key : String) : Option String :=
  tzs.reverse.find? (fun tz => pyLower tz == key)

/-- The message printed for an unrecognized timezone (line 172). -/
def tzErrMsg (tzurl : String) : String :=
  "Por favor defina um 'time zone' valido:\n (check [" ++ tzurl ++ "])"

/-- `ask_timezone(question, default, tzurl)` (lines 162–173): delegate to
the text prompt, normalize the answer, accept it when it is a known
canonical name (returning the canonical capitalization), otherwise print
the validation URL and loop. The set of canonical identifiers of the
platform timezone database is the parameter `tzs`. -/
def ask_timezone_go (tzs : List String) (question : String) (default : PyVal)
    (tzurl : String) : Nat → List String → StepRes PyVal
  | 0, _ => .pending []
  | fuel + 1, inputs =>
    match ask question .str default Option.none inputs with
    | .pending o => .pending o
    | .raised m => .raised m
    | .ok v rest o =>
      match tzLookup tzs (normalizeTz v.pyStr) with
      | some tz => .ok (.str tz) rest o
      | Option.none =>
          prependOut (o ++ [tzErrMsg tzurl])
            (ask_timezone_go tzs question default tzurl fuel rest)

/-- Every loop iteration consumes at least one input line
(`ask_ok_length`), so `inputs.length + 1` rounds always suffice: the
fuel of `ask_timezone_go` never runs out and the definition computes
exactly the `while True` loop of the source. -/
def ask_timezone (tzs : List String) (question : String) (default : PyVal)
    (tzurl : String) (inputs : List String) : StepRes PyVal :=
  ask_timezone_go tzs question default tzurl (inputs.length + 1) inputs

/-- With enough fuel for the input, the fuel argument is irrelevant. -/
theorem ask_timezone_go_mono (tzs : List String) (question : String) (default : PyVal)
    (tzurl : String) :
    ∀ f1 : Nat, ∀ f2 : Nat, ∀ inputs : List String,
      inputs.length < f1 → inputs.length < f2 →
      ask_timezone_go tzs question default tzurl f1 inputs =
        ask_timezone_go tzs question default tzurl f2 inputs := by
  intro f1
  induction f1 with
  | zero => intro f2 inputs h1 h2; cases h1
  | succ fa ih =>
    intro f2 inputs h1 h2
    cases f2 with
    | zero => cases h2
    | succ fb =>
      simp only [ask_timezone_go]
      cases hask : ask question .str default Option.none inputs with
      | pending o => rfl
      | raised m => rfl
      | ok v rest o =>
        show (match tzLookup tzs (normalizeTz v.pyStr) with
            | some tz => StepRes.ok (PyVal.str tz) rest o
            | Option.none => prependOut (o ++ [tzErrMsg tzurl])
                (ask_timezone_go tzs question default tzurl fa rest)) =
          (match tzLookup tzs (normalizeTz v.pyStr) with
            | some tz => StepRes.ok (PyVal.str tz) rest o
            | Option.none => prependOut (o ++ [tzErrMsg tzurl])
                (ask_timezone_go tzs question default tzurl fb rest))
        cases tzLookup tzs (normalizeTz v.pyStr) with
        | some tz => rfl
        | none =>
          have hlt := ask_ok_length hask
          rw [ih fb rest (by omega) (by omega)]

/-- `pyLen s = 0` exactly for the empty string. -/
theorem pyLen_eq_zero {s : String} : pyLen s = 0 ↔ s = "" := by
  constructor
  · intro h
    apply String.ext
    have hd : s.data = [] := List.length_eq_zero.mp h
    rw [hd]
  · intro h; subst h; rfl

/-- The emptiness test `len(r) <= 0` fails on a nonempty string. -/
theorem pyLen_pos_of_ne {s : String} (h : s ≠ "") : ¬(pyLen s ≤ 0) := by
  rw [Nat.le_zero]
  exact fun h0 => h (pyLen_eq_zero.mp h0)

/-- A nonempty string is truthy. -/
theorem str_truthy_of_ne {d : String} (hd : d ≠ "") : (PyVal.str d).truthy = true := by
  show (!d.data.isEmpty) = true
  simp only [Bool.not_eq_true', List.isEmpty_eq_false_iff_exists_mem]
  rcases hd' : d.data with _ | ⟨c, cs⟩
  · exact absurd (String.ext (by rw [hd'])) hd
  · exact ⟨c, by simp⟩

/-- Stripping is idempotent (list level): stripping whitespace from both
ends of an already both-ends-stripped character list changes nothing. -/
theorem strip_chars_idem (l : List Char) :
    List.rdropWhile Char.isWhitespace (List.dropWhile Char.isWhitespace
      (List.rdropWhile Char.isWhitespace (List.dropWhile Char.isWhitespace l))) =
    List.rdropWhile Char.isWhitespace (List.dropWhile Char.isWhitespace l) := by
  have hx : List.dropWhile Char.isWhitespace
      (List.rdropWhile Char.isWhitespace (List.dropWhile Char.isWhitespace l)) =
      List.rdropWhile Char.isWhitespace (List.dropWhile Char.isWhitespace l) := by
    rcases hpre : List.rdropWhile Char.isWhitespace
        (List.dropWhile Char.isWhitespace l) with _ | ⟨a, t⟩
    · rfl
    · have hpref := List.rdropWhile_prefix Char.isWhitespace
        (List.dropWhile Char.isWhitespace l)
      rw [hpre] at hpref
      obtain ⟨t', ht'⟩ := hpref
      have hd2 : List.dropWhile Char.isWhitespace l = a :: (t ++ t') := by
        rw [← ht', List.cons_append]
      have hh := List.head?_dropWhile_not Char.isWhitespace l
      rw [hd2] at hh
      simp only [List.head?_cons] at hh
      rw [List.dropWhile_cons, hh]
      simp
  rw [hx, List.rdropWhile_idempotent]

/-- `pyStrip` is idempotent. -/
theorem pyStrip_idem (s : String) : pyStrip (pyStrip s) = pyStrip s :=
  congrArg String.mk (strip_chars_idem s.data)

/-- The normalization on line 167 applied to an already-stripped string
agrees with applying it to the raw string. -/
theorem normalizeTz_pyStrip (s : String) :
    normalizeTz (pyStrip s) = normalizeTz s := by
  unfold normalizeTz
  rw [pyStrip_idem]

/-- A text prompt accepts its first line when the stripped line is
nonempty and the length constraint (if any) does not reject it. -/
theorem askStr_accepts {q : String} {d : PyVal} {len : Option Nat} {line : String}
    {rest : List String} (hne : pyStrip line ≠ "")
    (hlen : ∀ L, len = some L → L = 0 ∨ pyLen (pyStrip line) = L) :
    askStrLoop q d len (line :: rest) =
      .ok (.str (pyStrip line)) rest [promptWithDefault q d] := by
  simp only [askStrLoop]
  rw [if_neg (pyLen_pos_of_ne hne)]
  have hrej : lenRejects len (pyStrip line) = false := by
    cases len with
    | none => rfl
    | some L =>
      rcases hlen L rfl with h0 | hL
      · simp [lenRejects, h0]
      · simp [lenRejects, hL]
  rw [hrej]
  simp

/-- A text prompt whose default is truthy returns the default verbatim
on a line that strips to empty, regardless of any length constraint. -/
theorem askStr_empty_returns_default {q : String} {d : PyVal} {len : Option Nat}
    {line : String} {rest : List String} (ht : d.truthy = true)
    (he : pyStrip line = "") :
    askStrLoop q d len (line :: rest) = .ok d rest [promptWithDefault q d] := by
  simp only [askStrLoop]
  rw [he]
  rw [if_pos (by decide : pyLen "" ≤ 0), if_pos ht]

/-- A text prompt with a falsy default consumes a line that strips to
empty, prints the error message, and loops. -/
theorem askStr_empty_reprompts {q : String} {d : PyVal} {len : Option Nat}
    {line : String} {rest : List String} (ht : d.truthy = false)
    (he : pyStrip line = "") :
    askStrLoop q d len (line :: rest) =
      prependOut [promptWithDefault q d, "Deve ser inserido um valor"]
        (askStrLoop q d len rest) := by
  simp only [askStrLoop]
  rw [he]
  rw [if_pos (by decide : pyLen "" ≤ 0), if_neg (by rw [ht]; exact Bool.false_ne_true)]

/-- One unfolding of the `ask_timezone` loop, given the result of the
inner text prompt. -/
theorem ask_timezone_ok {tzs : List String} {q : String} {d : PyVal} {url : String}
    {inputs : List String} {v : PyVal} {rest o : List String}
    (h : ask q .str d Option.none inputs = .ok v rest o) :
    ask_timezone tzs q d url inputs =
      match tzLookup tzs (normalizeTz v.pyStr) with
      | some tz => .ok (.str tz) rest o
      | Option.none => prependOut (o ++ [tzErrMsg url]) (ask_timezone tzs q d url rest) := by
  unfold ask_timezone
  simp only [ask_timezone_go]
  rw [h]
  show (match tzLookup tzs (normalizeTz v.pyStr) with
      | some tz => StepRes.ok (PyVal.str tz) rest o
      | Option.none => prependOut (o ++ [tzErrMsg url])
          (ask_timezone_go tzs q d url inputs.length rest)) = _
  cases tzLookup tzs (normalizeTz v.pyStr) with
  | some tz => rfl
  | none =>
    have hlt := ask_ok_length h
    rw [ask_timezone_go_mono tzs q d url inputs.length (rest.length + 1) rest
      (by omega) (by omega)]
    rfl

/-- Claim C7: calling `ask` with an `answer` argument that is none of
the three supported kinds raises `NotImplementedError` (line 159),
without prompting the user, consuming input, or returning a value. -/
theorem ask_unsupported_kind_raises (q : String) (name : String) (d : PyVal)
    (len : Option Nat) (inputs : List String) :
    ask q (.other name) d len inputs =
      .raised "a variavel `answer` deve ser uma str, bool, ou integer" := rfl

/-- Claim C10: a text prompt whose supplied default is the empty string
behaves exactly as if no default (`None`) had been given — same prompt
text (no default shown), same re-prompting on empty input, same
results. The URL-prefix prompt passes `CONF["siteurl"] = ""` as default
and is therefore affected. -/
theorem ask_str_empty_default_like_none (q : String) (len : Option Nat)
    (inputs : List String) :
    ask q .str (.str "") len inputs = ask q .str PyVal.none len inputs := by
  show askStrLoop q (.str "") len inputs = askStrLoop q PyVal.none len inputs
  induction inputs with
  | nil => rfl
  | cons line rest ih =>
    simp only [askStrLoop]
    have hp : promptWithDefault q (.str "") = promptWithDefault q PyVal.none := rfl
    have ht : (PyVal.str "").truthy = PyVal.none.truthy := rfl
    rw [hp, ht, ih]
    by_cases hc : pyLen (pyStrip line) ≤ 0
    · rw [if_pos hc, if_pos hc, if_neg (by decide : ¬PyVal.none.truthy = true),
        if_neg (by decide : ¬PyVal.none.truthy = true)]
    · rw [if_neg hc, if_neg hc]

/-- Prepending output twice is prepending the concatenation. -/
theorem prependOut_prependOut {α : Type} (o1 o2 : List String) (r : StepRes α) :
    prependOut o1 (prependOut o2 r) = prependOut (o1 ++ o2) r := by
  cases r <;> simp [prependOut]

/-- Prepending no output changes nothing. -/
theorem prependOut_nil {α : Type} (r : StepRes α) : prependOut [] r = r := by
  cases r <;> simp [prependOut]

/-- Counterexample to claim C1 as stated: the plain inputs `"yes"` and
`"no"` do not yield `true`/`false`; the boolean prompt re-prompts on
them (only `"y"`/`"n"` and the literal localized tokens are
recognized), ending up blocked on further input. -/
theorem ask_bool_yes_no_counterexample :
    ask "Deseja ativar a numeração das paginas dos artigos?" .bool (.bool true)
        Option.none ["yes"] =
      .pending ["> Deseja ativar a numeração das paginas dos artigos? (Y/n) ",
        "Responda as perguntas com 'y' para Sim e 'n' para Não",
        "> Deseja ativar a numeração das paginas dos artigos? (Y/n) "] ∧
    ask "Deseja ativar a numeração das paginas dos artigos?" .bool (.bool true)
        Option.none ["no"] =
      .pending ["> Deseja ativar a numeração das paginas dos artigos? (Y/n) ",
        "Responda as perguntas com 'y' para Sim e 'n' para Não",
        "> Deseja ativar a numeração das paginas dos artigos? (Y/n) "] := by
  constructor <;> decide

/-- Claim C1 (amended): for a boolean prompt, a line whose
stripped-and-lowered form is `"y"` or the literal token `"yes / sim"`
yields `true`; `"n"` or the literal token `"no / nao"` yields `false`;
an empty line yields the supplied default verbatim; any other token
prints a usage hint and re-prompts (in particular plain `"yes"` and
`"no"` re-prompt). -/
theorem ask_bool_semantics (q : String) (d : PyVal) (line : String)
    (rest : List String) :
    (pyLower (pyStrip line) = "y" ∨ pyLower (pyStrip line) = "yes / sim" →
      ask q .bool d Option.none (line :: rest) = .ok (.bool true) rest [boolPrompt q d]) ∧
    (pyLower (pyStrip line) = "n" ∨ pyLower (pyStrip line) = "no / nao" →
      ask q .bool d Option.none (line :: rest) = .ok (.bool false) rest [boolPrompt q d]) ∧
    (pyLower (pyStrip line) = "" →
      ask q .bool d Option.none (line :: rest) = .ok d rest [boolPrompt q d]) ∧
    (pyLower (pyStrip line) ≠ "y" → pyLower (pyStrip line) ≠ "yes / sim" →
      pyLower (pyStrip line) ≠ "n" → pyLower (pyStrip line) ≠ "no / nao" →
      pyLower (pyStrip line) ≠ "" →
      ask q .bool d Option.none (line :: rest) =
        prependOut [boolPrompt q d,
            "Responda as perguntas com 'y' para Sim e 'n' para Não"]
          (askBoolLoop q d rest)) := by
  refine ⟨?_, ?_, ?_, ?_⟩
  · intro h
    show askBoolLoop q d (line :: rest) = _
    simp only [askBoolLoop]
    rw [if_pos h]
  · intro h
    have h1 : ¬(pyLower (pyStrip line) = "y" ∨ pyLower (pyStrip line) = "yes / sim") := by
      rcases h with h | h <;> rw [h] <;> decide
    show askBoolLoop q d (line :: rest) = _
    simp only [askBoolLoop]
    rw [if_neg h1, if_pos h]
  · intro h
    have h1 : ¬(pyLower (pyStrip line) = "y" ∨ pyLower (pyStrip line) = "yes / sim") := by
      rw [h]; decide
    have h2 : ¬(pyLower (pyStrip line) = "n" ∨ pyLower (pyStrip line) = "no / nao") := by
      rw [h]; decide
    show askBoolLoop q d (line :: rest) = _
    simp only [askBoolLoop]
    rw [if_neg h1, if_neg h2, if_pos h]
  · intro hy hys hn hno he
    have h1 : ¬(pyLower (pyStrip line) = "y" ∨ pyLower (pyStrip line) = "yes / sim") := by
      intro hc; rcases hc with hc | hc
      · exact hy hc
      · exact hys hc
    have h2 : ¬(pyLower (pyStrip line) = "n" ∨ pyLower (pyStrip line) = "no / nao") := by
      intro hc; rcases hc with hc | hc
      · exact hn hc
      · exact hno hc
    show askBoolLoop q d (line :: rest) = _
    simp only [askBoolLoop]
    rw [if_neg h1, if_neg h2, if_neg he]

/-- Witness for `ask_bool_semantics` at concrete inputs. -/
theorem ask_bool_semantics_witness :
    ask "Q" .bool (.bool true) Option.none ["  Y "] =
      .ok (.bool true) [] [boolPrompt "Q" (.bool true)] ∧
    ask "Q" .bool (.bool true) Option.none ["N"] =
      .ok (.bool false) [] [boolPrompt "Q" (.bool true)] ∧
    ask "Q" .bool (.bool false) Option.none [" "] =
      .ok (.bool false) [] [boolPrompt "Q" (.bool false)] ∧
    ask "Q" .bool (.bool true) Option.none ["talvez"] =
      prependOut [boolPrompt "Q" (.bool true),
          "Responda as perguntas com 'y' para Sim e 'n' para Não"]
        (askBoolLoop "Q" (.bool true) []) :=
  ⟨(ask_bool_semantics "Q" (.bool true) "  Y " []).1 (Or.inl (by decide)),
   (ask_bool_semantics "Q" (.bool true) "N" []).2.1 (Or.inl (by decide)),
   (ask_bool_semantics "Q" (.bool false) " " []).2.2.1 (by decide),
   (ask_bool_semantics "Q" (.bool true) "talvez" []).2.2.2
     (by decide) (by decide) (by decide) (by decide) (by decide)⟩

/-- A text prompt with no (or falsy) default consumes any run of lines
that strip to empty, printing the error message for each. -/
theorem askStr_no_default_skips_empties (q : String) (len : Option Nat) :
    ∀ (empties : List String), (∀ l ∈ empties, pyStrip l = "") →
    ∀ (tail : List String),
      askStrLoop q PyVal.none len (empties ++ tail) =
        prependOut (empties.flatMap
            (fun _ => [promptWithDefault q PyVal.none, "Deve ser inserido um valor"]))
          (askStrLoop q PyVal.none len tail) := by
  intro empties
  induction empties with
  | nil =>
    intro _ tail
    rw [List.nil_append, List.flatMap_nil, prependOut_nil]
  | cons e es ih =>
    intro hemp tail
    have he : pyStrip e = "" := hemp e (by simp)
    rw [List.cons_append]
    rw [askStr_empty_reprompts (show PyVal.none.truthy = false from rfl) he]
    rw [ih (fun l hl => hemp l (by simp [hl])) tail]
    rw [prependOut_prependOut]
    congr 1

/-- Claim C4: for a text prompt, an input line that strips to empty
returns the supplied nonempty default exactly; with no default (`None`),
each empty line prints an error and re-prompts, until a nonempty line is
entered, which is then returned. -/
theorem ask_str_default_and_reprompt (q : String) (len : Option Nat) (d : String)
    (empties : List String) (line : String) (rest : List String)
    (hd : d ≠ "") (hemp : ∀ l ∈ empties, pyStrip l = "")
    (hne : pyStrip line ≠ "")
    (hlen : ∀ L, len = some L → L = 0 ∨ pyLen (pyStrip line) = L) :
    (∀ e rest', pyStrip e = "" →
        ask q .str (.str d) len (e :: rest') =
          .ok (.str d) rest' [promptWithDefault q (.str d)]) ∧
    ask q .str PyVal.none len (empties ++ line :: rest) =
      .ok (.str (pyStrip line)) rest
        (empties.flatMap
            (fun _ => [promptWithDefault q PyVal.none, "Deve ser inserido um valor"])
          ++ [promptWithDefault q PyVal.none]) := by
  constructor
  · intro e rest' he
    exact askStr_empty_returns_default (str_truthy_of_ne hd) he
  · show askStrLoop q PyVal.none len (empties ++ line :: rest) = _
    rw [askStr_no_default_skips_empties q len empties hemp (line :: rest)]
    rw [askStr_accepts hne hlen]
    simp [prependOut]

/-- Witness for `ask_str_default_and_reprompt` at concrete inputs. -/
theorem ask_str_default_and_reprompt_witness :
    ask "Quem é o autor desse site?" .str (.str "Ana") Option.none ["   "] =
      .ok (.str "Ana") [] [promptWithDefault "Quem é o autor desse site?" (.str "Ana")] ∧
    ask "Quem é o autor desse site?" .str PyVal.none Option.none ["", " Ana "] =
      .ok (.str "Ana") []
        [promptWithDefault "Quem é o autor desse site?" PyVal.none,
         "Deve ser inserido um valor",
         promptWithDefault "Quem é o autor desse site?" PyVal.none] := by
  have h := ask_str_default_and_reprompt "Quem é o autor desse site?" Option.none
      "Ana" [""] " Ana " [] (by decide) (by decide) (by decide)
      (fun L hL => by cases hL)
  exact ⟨h.1 "   " [] (by decide), h.2.trans (by decide)⟩

/-- Claim C9: for a text prompt given both a nonempty default and an
exact-length constraint, an empty input line returns the default
verbatim, bypassing the length check — even when the default's length
differs from the required length. -/
theorem ask_str_default_skips_length (q : String) (d : String) (L : Nat)
    (line : String) (rest : List String)
    (hd : d ≠ "") (hl : pyStrip line = "") (hdl : pyLen d ≠ L) :
    ask q .str (.str d) (some L) (line :: rest) =
      .ok (.str d) rest [promptWithDefault q (.str d)] ∧ pyLen d ≠ L :=
  ⟨askStr_empty_returns_default (str_truthy_of_ne hd) hl, hdl⟩

/-- Witness for `ask_str_default_skips_length`: the language prompt is
constrained to 2 characters but returns a 7-character default on empty
input. -/
theorem ask_str_default_skips_length_witness :
    ask "Qual a lingua padrão desse site?" .str (.str "english") (some 2) [""] =
      .ok (.str "english") []
        [promptWithDefault "Qual a lingua padrão desse site?" (.str "english")] ∧
    pyLen "english" ≠ 2 :=
  ask_str_default_skips_length "Qual a lingua padrão desse site?" "english" 2 "" []
    (by decide) (by decide) (by decide)

/-- The timezone-list URL printed in the validation hint (line 77). -/
def _TZ_URL : String := "https://en.wikipedia.org/wiki/List_of_tz_database_time_zones"

/-- Looking up the lower-casing of a canonical name returns that name,
provided lower-casing is injective on the database (which holds for the
keys of the Python dict, since equal-lowercase names would collide). -/
theorem tzLookup_self {tzs : List String} {tz : String}
    (hinj : ∀ t1 ∈ tzs, ∀ t2 ∈ tzs, pyLower t1 = pyLower t2 → t1 = t2)
    (htz : tz ∈ tzs) : tzLookup tzs (pyLower tz) = some tz := by
  unfold tzLookup
  have hex : ∃ x ∈ tzs.reverse, (pyLower x == pyLower tz) = true :=
    ⟨tz, List.mem_reverse.mpr htz, by simp⟩
  have hsome := List.find?_isSome.mpr hex
  obtain ⟨t', ht'⟩ := Option.isSome_iff_exists.mp hsome
  rw [ht']
  have hmem : t' ∈ tzs := List.mem_reverse.mp (List.mem_of_find?_eq_some ht')
  have heq : pyLower t' = pyLower tz := by simpa using List.find?_some ht'
  rw [hinj t' hmem tz htz heq]

/-- Claim C2 (amended): for an input line that is nonempty after
stripping, `ask_timezone` accepts it exactly when its normalized form
(strip, spaces to underscores, lower-case) is the lower-casing of a
canonical identifier, returning the canonical capitalization; a
nonempty line matching nothing prints the validation URL and
re-prompts. (An input line that strips to empty is instead replaced by
the supplied default before validation — see the counterexample.) -/
theorem ask_timezone_accept_reject (tzs : List String) (q d url line : String)
    (rest : List String)
    (hinj : ∀ t1 ∈ tzs, ∀ t2 ∈ tzs, pyLower t1 = pyLower t2 → t1 = t2)
    (hne : pyStrip line ≠ "") :
    (∀ tz ∈ tzs, normalizeTz line = pyLower tz →
      ask_timezone tzs q (.str d) url (line :: rest) =
        .ok (.str tz) rest [promptWithDefault q (.str d)]) ∧
    (tzLookup tzs (normalizeTz line) = Option.none →
      ask_timezone tzs q (.str d) url (line :: rest) =
        prependOut [promptWithDefault q (.str d), tzErrMsg url]
          (ask_timezone tzs q (.str d) url rest)) := by
  have hask : ask q .str (.str d) Option.none (line :: rest) =
      .ok (.str (pyStrip line)) rest [promptWithDefault q (.str d)] :=
    askStr_accepts hne (fun L hL => by cases hL)
  constructor
  · intro tz htz hmatch
    rw [ask_timezone_ok hask]
    have hnorm : normalizeTz (PyVal.str (pyStrip line)).pyStr = pyLower tz := by
      show normalizeTz (pyStrip line) = _
      rw [normalizeTz_pyStrip, hmatch]
    rw [hnorm, tzLookup_self hinj htz]
  · intro hnone
    rw [ask_timezone_ok hask]
    have hnorm : normalizeTz (PyVal.str (pyStrip line)).pyStr = normalizeTz line := by
      show normalizeTz (pyStrip line) = _
      exact normalizeTz_pyStrip line
    rw [hnorm, hnone]
    rfl

/-- Witness for `ask_timezone_accept_reject` at concrete inputs. -/
theorem ask_timezone_accept_reject_witness :
    ask_timezone ["America/Fortaleza", "UTC"] "Qual a sua time zone?"
        (.str "America/Fortaleza") _TZ_URL ["utc"] =
      .ok (.str "UTC") []
        [promptWithDefault "Qual a sua time zone?" (.str "America/Fortaleza")] ∧
    ask_timezone ["America/Fortaleza", "UTC"] "Qual a sua time zone?"
        (.str "America/Fortaleza") _TZ_URL ["Mars/Olympus"] =
      prependOut [promptWithDefault "Qual a sua time zone?" (.str "America/Fortaleza"),
          tzErrMsg _TZ_URL]
        (ask_timezone ["America/Fortaleza", "UTC"] "Qual a sua time zone?"
          (.str "America/Fortaleza") _TZ_URL []) := by
  have h1 := ask_timezone_accept_reject ["America/Fortaleza", "UTC"]
    "Qual a sua time zone?" "America/Fortaleza" _TZ_URL "utc" [] (by decide) (by decide)
  have h2 := ask_timezone_accept_reject ["America/Fortaleza", "UTC"]
    "Qual a sua time zone?" "America/Fortaleza" _TZ_URL "Mars/Olympus" [] (by decide) (by decide)
  exact ⟨h1.1 "UTC" (by decide) (by decide), h2.2 (by decide)⟩

/-- Counterexample to claim C2 as stated: the empty input line
normalizes to `""`, which matches no canonical identifier, yet
`ask_timezone` does not re-prompt — the text prompt substitutes the
(valid) default, which is then accepted and returned. -/
theorem ask_timezone_empty_counterexample :
    tzLookup ["UTC"] (normalizeTz "") = Option.none ∧
    ask_timezone ["UTC"] "Qual a sua time zone?" (.str "UTC") _TZ_URL [""] =
      .ok (.str "UTC") [] ["> Qual a sua time zone? [UTC] "] := by
  constructor
  · decide
  · rw [ask_timezone_ok (show ask "Qual a sua time zone?" .str (.str "UTC")
        Option.none [""] = .ok (.str "UTC") [] ["> Qual a sua time zone? [UTC] "]
      by decide)]
    decide

/-- A Python exception, as far as the script's `try/except` blocks care:
an `OSError` (the caught class) or anything else (e.g. jinja template
errors, which are not caught). -/
inductive PyExc where
  | osError (msg : String)
  | otherExc (msg : String)
deriving DecidableEq, Repr

/-- The I/O environment of one `render_jinja_template` call: the result
of opening the target file for writing, of loading the named template,
of rendering it, and of writing the rendered text. -/
structure RenderWorld where
  openResult : Except PyExc Unit
  getTemplateResult : Except PyExc String
  renderResult : String → Except PyExc String
  writeResult : String → Except PyExc Unit

/-- The body of the `try:` block of `render_jinja_template`
(lines 177–182): open the target, load the template, render it, write;
the first exception aborts the rest of the block. -/
def renderBody (w : RenderWorld) : Except PyExc Unit :=
  match w.openResult with
  | .error e => .error e
  | .ok _ =>
    match w.getTemplateResult with
    | .error e => .error e
    | .ok t =>
      match w.renderResult t with
      | .error e => .error e
      | .ok s => w.writeResult s

/-- `render_jinja_template` (lines 176–184): run the body; an `OSError`
is caught, printed as `f"Error: {e}"`, and the function returns
normally; any other exception propagates. The value on success is the
console output. -/
def render_jinja_template (w : RenderWorld) : Except PyExc (List String) :=
  match renderBody w with
  | .ok _ => .ok []
  | .error (.osError m) => .ok ["Error: " ++ m]
  | .error (.otherExc m) => .error (.otherExc m)

/-- Sequential rendering of several files, as `main` does (lines
390–396): later files are rendered only if no earlier call propagated
an exception. -/
def renderSeq : List RenderWorld → Except PyExc (List String)
  | [] => .ok []
  | w :: ws =>
    match render_jinja_template w with
    | .ok out =>
      match renderSeq ws with
      | .ok outs => .ok (out ++ outs)
      | .error e => .error e
    | .error e => .error e

/-- Claim C3: when opening the target file fails with an I/O error, or
when writing fails with an I/O error, `render_jinja_template` catches
the error, prints it, and returns normally; consequently a following
render call still runs. -/
theorem render_jinja_template_catches_io (w : RenderWorld) (m : String) :
    (w.openResult = .error (.osError m) →
      render_jinja_template w = .ok ["Error: " ++ m]) ∧
    (∀ t s, w.openResult = .ok () → w.getTemplateResult = .ok t →
      w.renderResult t = .ok s → w.writeResult s = .error (.osError m) →
      render_jinja_template w = .ok ["Error: " ++ m]) ∧
    (∀ ws, w.openResult = .error (.osError m) →
      renderSeq (w :: ws) =
        (renderSeq ws).map (fun outs => ("Error: " ++ m) :: outs)) := by
  refine ⟨?_, ?_, ?_⟩
  · intro h
    simp [render_jinja_template, renderBody, h]
  · intro t s h1 h2 h3 h4
    simp [render_jinja_template, renderBody, h1, h2, h3, h4]
  · intro ws h
    have hw : render_jinja_template w = .ok ["Error: " ++ m] := by
      simp [render_jinja_template, renderBody, h]
    rw [renderSeq, hw]
    cases hr : renderSeq ws <;> simp [Except.map]

/-- Witness for `render_jinja_template_catches_io` at concrete worlds. -/
theorem render_jinja_template_catches_io_witness :
    render_jinja_template
        ⟨.error (.osError "Permission denied"), .ok "T", fun t => .ok t,
          fun _ => .ok ()⟩ =
      .ok ["Error: Permission denied"] ∧
    render_jinja_template
        ⟨.ok (), .ok "T", fun t => .ok t, fun _ => .error (.osError "No space left")⟩ =
      .ok ["Error: No space left"] ∧
    renderSeq
        [⟨.error (.osError "Permission denied"), .ok "T", fun t => .ok t, fun _ => .ok ()⟩,
         ⟨.ok (), .ok "T", fun t => .ok t, fun _ => .ok ()⟩] =
      .ok ["Error: Permission denied"] := by
  have h1 := (render_jinja_template_catches_io
    ⟨.error (.osError "Permission denied"), .ok "T", fun t => .ok t, fun _ => .ok ()⟩
    "Permission denied").1 rfl
  have h2 := (render_jinja_template_catches_io
    ⟨.ok (), .ok "T", fun t => .ok t, fun _ => .error (.osError "No space left")⟩
    "No space left").2.1 "T" "T" rfl rfl rfl rfl
  have h3 := (render_jinja_template_catches_io
    ⟨.error (.osError "Permission denied"), .ok "T", fun t => .ok t, fun _ => .ok ()⟩
    "Permission denied").2.2
    [⟨.ok (), .ok "T", fun t => .ok t, fun _ => .ok ()⟩] rfl
  exact ⟨h1, h2, h3.trans rfl⟩

/-- The parsed `--path` argument: its string value, together with
whether it is the marked default (`hasattr(args.path, "is_default_path")`,
i.e. the user did not pass the path flag on the command line). -/
structure ArgsPath where
  path : String
  is_default_path : Bool
deriving DecidableEq, Repr

/-- `_DEFAULT_PATH = _DEFAULT_PATH_TYPE(os.curdir)` (line 86). -/
def _DEFAULT_PATH : ArgsPath := ⟨".", true⟩

/-- The message printed when the marker file's directory is reused
(lines 222–225). -/
def reuseMsg (basedir : String) : String :=
  "Usando o projeto jã associado a esse virtual environment. Will save to:\n"
    ++ basedir ++ "\n"

/-- Lines 218–235 of `main`: if the `.project` marker file under the
active virtual environment exists and no path was passed on the command
line, use the marker's contents (with trailing newlines stripped) as
the base directory without prompting; otherwise prompt for a directory
with the command-line path (or the current directory) as default.
`markerIsFile` and `markerContents` abstract `os.path.isfile(project)`
and `open(project).read()`; `expandAbs` abstracts
`os.path.abspath(os.path.expanduser(·))`. -/
def resolveBasedir (markerIsFile : Bool) (markerContents : String)
    (argsPath : ArgsPath) (expandAbs : String → String)
    (inputs : List String) : StepRes PyVal :=
  if markerIsFile && argsPath.is_default_path then
    .ok (.str (pyRstripNl markerContents)) inputs
      [reuseMsg (pyRstripNl markerContents)]
  else
    (ask "Onde deseja criar seu novo site?" .str (.str argsPath.path)
        Option.none inputs).mapv
      (fun v => .str (expandAbs v.pyStr))

/-- Claim C5: with the marker file present and no explicit path flag,
the stored path (trailing newline stripped) is used silently — no input
is consumed, no directory prompt is issued; otherwise the directory
prompt is issued with the command-line-supplied path (or current
directory) as default, as witnessed by empty input returning that
default. -/
theorem basedir_marker_reuse (markerIsFile : Bool) (contents : String)
    (ap : ArgsPath) (ea : String → String) (inputs : List String) :
    (markerIsFile = true → ap.is_default_path = true →
      resolveBasedir markerIsFile contents ap ea inputs =
        .ok (.str (pyRstripNl contents)) inputs [reuseMsg (pyRstripNl contents)]) ∧
    ((markerIsFile = false ∨ ap.is_default_path = false) →
      ∀ line rest, pyStrip line = "" → ap.path ≠ "" →
        resolveBasedir markerIsFile contents ap ea (line :: rest) =
          .ok (.str (ea ap.path)) rest
            [promptWithDefault "Onde deseja criar seu novo site?" (.str ap.path)]) := by
  constructor
  · intro h1 h2
    simp [resolveBasedir, h1, h2]
  · intro h line rest he hp
    have hc : (markerIsFile && ap.is_default_path) = false := by
      rcases h with h | h <;> simp [h]
    simp only [resolveBasedir, hc, Bool.false_eq_true, if_false]
    rw [show ask "Onde deseja criar seu novo site?" .str (.str ap.path)
          Option.none (line :: rest) =
        .ok (.str ap.path) rest
          [promptWithDefault "Onde deseja criar seu novo site?" (.str ap.path)]
      from askStr_empty_returns_default (str_truthy_of_ne hp) he]
    rfl

/-- Witness for `basedir_marker_reuse` at concrete inputs. -/
theorem basedir_marker_reuse_witness :
    resolveBasedir true "/home/ana/blog\n" _DEFAULT_PATH id ["ignored"] =
      .ok (.str "/home/ana/blog") ["ignored"] [reuseMsg "/home/ana/blog"] ∧
    resolveBasedir true "/home/ana/blog\n" ⟨"/srv/site", false⟩ id [" "] =
      .ok (.str "/srv/site") []
        [promptWithDefault "Onde deseja criar seu novo site?" (.str "/srv/site")] := by
  have h1 := (basedir_marker_reuse true "/home/ana/blog\n" _DEFAULT_PATH id
    ["ignored"]).1 rfl rfl
  have h2 := (basedir_marker_reuse true "/home/ana/blog\n" ⟨"/srv/site", false⟩ id
    [" "]).2 (Or.inr rfl) " " [] (by decide) (by decide)
  exact ⟨h1.trans (by decide), h2⟩

/-- `(StepRes.ok v rest o).andThen f` prepends `o` to the continuation's
output. -/
theorem andThen_ok_left {α β : Type} {v : α} {rest o1 : List String}
    (f : α → List String → StepRes β) :
    (StepRes.ok v rest o1).andThen f = prependOut o1 (f v rest) := by
  cases h : f v rest <;> simp [StepRes.andThen, prependOut, h]

/-- Lines 261–274 of `main`: ask whether to paginate (boolean prompt
whose default is the truthiness of the current `default_pagination`);
if yes, ask for the page count (integer prompt defaulting to the
current `default_pagination`); if no, record `False`. Returns the pair
`(CONF["with_pagination"], CONF["default_pagination"])`. -/
def paginationStep (dp : PyVal) (inputs : List String) : StepRes (PyVal × PyVal) :=
  (ask "Deseja ativar a numeração das paginas dos artigos?" .bool (.bool dp.truthy)
      Option.none inputs).andThen
    (fun wp rest =>
      if wp.truthy then
        (ask "Quantos artigos por página   você quer que apareça?" .int dp
            Option.none rest).mapv (fun n => (wp, n))
      else .ok (wp, .bool false) rest [])

/-- Claim C6: answering the pagination prompt negatively records the
boolean `False` (not a number) as the pagination setting; answering
affirmatively continues with an integer prompt for the page size whose
default is the current numeric value. -/
theorem pagination_negative_records_false (dp : PyVal) (line : String)
    (rest : List String) :
    (pyLower (pyStrip line) = "n" ∨ pyLower (pyStrip line) = "no / nao" →
      paginationStep dp (line :: rest) =
        .ok (.bool false, .bool false) rest
          [boolPrompt "Deseja ativar a numeração das paginas dos artigos?"
            (.bool dp.truthy)]) ∧
    (pyLower (pyStrip line) = "y" ∨ pyLower (pyStrip line) = "yes / sim" →
      paginationStep dp (line :: rest) =
        prependOut
          [boolPrompt "Deseja ativar a numeração das paginas dos artigos?"
            (.bool dp.truthy)]
          ((askIntLoop "Quantos artigos por página   você quer que apareça?" dp rest).mapv
            (fun n => (.bool true, n)))) := by
  constructor
  · intro h
    unfold paginationStep
    rw [(ask_bool_semantics "Deseja ativar a numeração das paginas dos artigos?"
      (.bool dp.truthy) line rest).2.1 h]
    rw [andThen_ok_left]
    simp [PyVal.truthy, prependOut]
  · intro h
    unfold paginationStep
    rw [(ask_bool_semantics "Deseja ativar a numeração das paginas dos artigos?"
      (.bool dp.truthy) line rest).1 h]
    rw [andThen_ok_left]
    rfl

/-- Witness for `pagination_negative_records_false` at concrete inputs. -/
theorem pagination_negative_records_false_witness :
    paginationStep (.int 10) ["n"] =
      .ok (.bool false, .bool false) []
        [boolPrompt "Deseja ativar a numeração das paginas dos artigos?" (.bool true)] ∧
    paginationStep (.int 10) ["y", ""] =
      .ok (.bool true, .int 10) []
        [boolPrompt "Deseja ativar a numeração das paginas dos artigos?" (.bool true),
         promptWithDefault "Quantos artigos por página   você quer que apareça?" (.int 10)] := by
  have h1 := (pagination_negative_records_false (.int 10) "n" []).1 (Or.inl (by decide))
  have h2 := (pagination_negative_records_false (.int 10) "y" [""]).2 (Or.inl (by decide))
  exact ⟨h1, h2.trans (by decide)⟩

/-- The settings mapping `CONF`: a Python dict in insertion order. -/
abbrev Conf := List (String × PyVal)

/-- Python `key in CONF`. -/
def Conf.has (c : Conf) (k : String) : Bool := c.any (fun p => p.1 == k)

/-- Python `CONF[key]` (the script only reads keys that are present; a
missing key is modelled as `None`). -/
def Conf.get (c : Conf) (k : String) : PyVal :=
  match c.find? (fun p => p.1 == k) with
  | some p => p.2
  | Option.none => PyVal.none

/-- Python `CONF[key] = value`: update in place, or append a new key at
the end, preserving insertion order. -/
def Conf.set (c : Conf) (k : String) (v : PyVal) : Conf :=
  if c.has k then c.map (fun p => if p.1 == k then (k, v) else p)
  else c ++ [(k, v)]

/-- The defaults table `CONF` (lines 53–74). The locale-derived default
language (`_DEFAULT_LANGUAGE`) and timezone (`_DEFAULT_TIMEZONE`) are
parameters; `github_pages_branch` defaults to the `"project"` branch
`"gh-pages"`. -/
def CONF (defaultLang defaultTimezone : String) : Conf :=
  [("pelican", .str "pelican"),
   ("pelicanopts", .str ""),
   ("basedir", .str "."),
   ("ftp_host", .str "localhost"),
   ("ftp_user", .str "anonymous"),
   ("ftp_target_dir", .str "/"),
   ("ssh_host", .str "localhost"),
   ("ssh_port", .int 22),
   ("ssh_user", .str "root"),
   ("ssh_target_dir", .str "/var/www"),
   ("s3_bucket", .str "my_s3_bucket"),
   ("cloudfiles_username", .str "my_rackspace_username"),
   ("cloudfiles_api_key", .str "my_rackspace_api_key"),
   ("cloudfiles_container", .str "my_cloudfiles_container"),
   ("dropbox_dir", .str "~/Dropbox/Public/"),
   ("github_pages_branch", .str "gh-pages"),
   ("default_pagination", .int 10),
   ("siteurl", .str ""),
   ("lang", .str defaultLang),
   ("timezone", .str defaultTimezone)]

/-- Command-line arguments and ambient environment of `main`: the
parsed flags, the marker-file state, the platform timezone database,
and the path normalization. -/
structure MainEnv where
  tzs : List String
  title : Option String
  author : Option String
  lang : Option String
  path : ArgsPath
  markerIsFile : Bool
  markerContents : String
  expandAbs : String → String

/-- A possibly-missing command-line string argument as a Python value. -/
def optStrToVal : Option String → PyVal
  | Option.none => PyVal.none
  | some s => .str s

/-- Python `a or b`. -/
def pyOr (a b : PyVal) : PyVal := if a.truthy then a else b

/-- One conf-transforming step of `main`'s prompting phase. -/
abbrev ConfStep := Conf → List String → StepRes Conf

/-- Two steps in sequence. -/
def cseq (s1 s2 : ConfStep) : ConfStep :=
  fun c inputs => (s1 c inputs).andThen s2

/-- `CONF[key] = ask(question, kind, default(CONF), length)`. -/
def askSetKey (key question : String) (kind : AnswerKind) (len : Option Nat)
    (dflt : Conf → PyVal) : ConfStep :=
  fun c inputs => (ask question kind (dflt c) len inputs).mapv (fun v => c.set key v)

/-- A publishing-target block (the pattern of lines 288–375): a yes/no
gate defaulting to no; on yes, set the flag key to the sentinel
`(True,)` and run the block body; on no, leave the mapping unchanged. -/
def gated (gateQuestion flagKey : String) (inner : ConfStep) : ConfStep :=
  fun c inputs =>
    (ask gateQuestion .bool (.bool false) Option.none inputs).andThen
      (fun v rest =>
        if v.truthy then inner (c.set flagKey (.tuple1 (.bool true))) rest
        else .ok c rest [])

/-- Lines 218–235: resolve and store `CONF["basedir"]`. -/
def stepBasedir (env : MainEnv) : ConfStep :=
  fun c inputs =>
    (resolveBasedir env.markerIsFile env.markerContents env.path env.expandAbs
        inputs).mapv
      (fun v => c.set "basedir" v)

/-- Lines 237–239: site title, defaulting to `args.title`. -/
def stepSitename (env : MainEnv) : ConfStep :=
  askSetKey "sitename" "Qual o titulo de seu novo site?" .str Option.none
    (fun _ => optStrToVal env.title)

/-- Lines 240–242: author, defaulting to `args.author`. -/
def stepAuthor (env : MainEnv) : ConfStep :=
  askSetKey "author" "Quem é o autor desse site?" .str Option.none
    (fun _ => optStrToVal env.author)

/-- Lines 243–248: language, defaulting to `args.lang or CONF["lang"]`,
with required length 2. -/
def stepLang (env : MainEnv) : ConfStep :=
  askSetKey "lang" "Qual a lingua padrão desse site?" .str (some 2)
    (fun c => pyOr (optStrToVal env.lang) (c.get "lang"))

/-- Lines 250–259: optional URL prefix, gated by a yes/no defaulting to
yes; stored only when opted in. -/
def stepSiteurl : ConfStep :=
  fun c inputs =>
    (ask "Deseja especificar um prefixo para URL? e.g., https://exemplo.com  " .bool
        (.bool true) Option.none inputs).andThen
      (fun v rest =>
        if v.truthy then
          askSetKey "siteurl"
            "Qual é o prefixo da URL? (Veja o exemplo acima; nao coloque a barra final)"
            .str Option.none (fun c' => c'.get "siteurl") c rest
        else .ok c rest [])

/-- Lines 261–274: pagination, via `paginationStep`. -/
def stepPagination : ConfStep :=
  fun c inputs =>
    (paginationStep (c.get "default_pagination") inputs).mapv
      (fun pr => (c.set "with_pagination" pr.1).set "default_pagination" pr.2)

/-- Lines 276–278: timezone via the validating prompt. -/
def stepTimezone (env : MainEnv) : ConfStep :=
  fun c inputs =>
    (ask_timezone env.tzs "Qual a sua time zone?" (c.get "timezone") _TZ_URL
        inputs).mapv
      (fun v => c.set "timezone" v)

/-- Lines 292–302: FTP sub-settings. -/
def ftpInner : ConfStep :=
  cseq (askSetKey "ftp_host" "Qual é o endereço de seu servidor FTP?" .str
      Option.none (fun c => c.get "ftp_host"))
    (cseq (askSetKey "ftp_user" "Qual é seu usuario de login?" .str Option.none
        (fun c => c.get "ftp_user"))
      (askSetKey "ftp_target_dir" "Onde você quer que seu site fique em seu servidor?"
        .str Option.none (fun c => c.get "ftp_target_dir")))

/-- Lines 306–320: SSH sub-settings (note the integer port prompt). -/
def sshInner : ConfStep :=
  cseq (askSetKey "ssh_host" "Qaul é o endereço de seu servidor SSH?" .str
      Option.none (fun c => c.get "ssh_host"))
    (cseq (askSetKey "ssh_port" "Qual é a porta do seu servidor SSH?" .int
        Option.none (fun c => c.get "ssh_port"))
      (cseq (askSetKey "ssh_user" "Qual é seu nome de usuario nesse servidor?" .str
          Option.none (fun c => c.get "ssh_user"))
        (askSetKey "ssh_target_dir" "Onde quer colocar o seu site nesse servidor?"
          .str Option.none (fun c => c.get "ssh_target_dir"))))

/-- Lines 327–330: Dropbox sub-settings. -/
def dropboxInner : ConfStep :=
  askSetKey "dropbox_dir" "Qual é a pasta do seu projeto no dropbox?" .str
    Option.none (fun c => c.get "dropbox_dir")

/-- Lines 335–338: S3 sub-settings. -/
def s3Inner : ConfStep :=
  askSetKey "s3_bucket" "Qual é o nome de seu S3 bucket?" .str Option.none
    (fun c => c.get "s3_bucket")

/-- Lines 345–360: Rackspace Cloud Files sub-settings. -/
def cloudfilesInner : ConfStep :=
  cseq (askSetKey "cloudfiles_username" "Qual é seu usuario de nuvem Rackspace Cloud username?"
      .str Option.none (fun c => c.get "cloudfiles_username"))
    (cseq (askSetKey "cloudfiles_api_key" "Qual é seu Rackspace Cloud API key?" .str
        Option.none (fun c => c.get "cloudfiles_api_key"))
      (askSetKey "cloudfiles_container" "Qual é o nome do seu Cloud Files conteiner?"
        .str Option.none (fun c => c.get "cloudfiles_container")))

/-- Lines 367–375: GitHub Pages branch choice (personal → `"main"`,
project → `"gh-pages"`). -/
def githubInner : ConfStep :=
  fun c inputs =>
    (ask "Qual é sua pagina pessoal (username.github.io)?" .bool (.bool false)
        Option.none inputs).mapv
      (fun v => c.set "github_pages_branch"
        (.str (if v.truthy then "main" else "gh-pages")))

/-- Lines 287–375: the six publishing-target opt-ins, in source order. -/
def automationBlocks : ConfStep :=
  cseq (gated "Usar o FTP para o upload de seu site?" "ftp" ftpInner)
    (cseq (gated "Você quer fazer upload de seu site usando SSH?" "ssh" sshInner)
      (cseq (gated "Você quer fazer o upload para o dropbox?" "dropbox" dropboxInner)
        (cseq (gated "Você quer fazer o upload usando S3?" "s3" s3Inner)
          (cseq (gated "Quer fazer upload usando o serviço Rackspace Cloud Files?"
              "cloudfiles" cloudfilesInner)
            (gated "Quer fazer upload do seu site usando GitHub Pages?" "github"
              githubInner)))))

/-- The automation question (lines 280–285), typo included. -/
def automationQuestion : String :=
  "Você deseja gerar um task.py/Makefile para autoamtizar a geração e publicação?"

/-- The prompting phase of `main` (lines 218–375): every prompt in
source order, threading the settings mapping; returns the final mapping
and the `automation` answer. -/
def promptPhase (env : MainEnv) (c : Conf) (inputs : List String) :
    StepRes (Conf × PyVal) :=
  (cseq (stepBasedir env)
    (cseq (stepSitename env)
      (cseq (stepAuthor env)
        (cseq (stepLang env)
          (cseq stepSiteurl
            (cseq stepPagination (stepTimezone env)))))) c inputs).andThen
    (fun c1 rest =>
      (ask automationQuestion .bool (.bool true) Option.none rest).andThen
        (fun a rest2 =>
          if a.truthy then
            (automationBlocks c1 rest2).mapv (fun c2 => (c2, a))
          else .ok (c1, a) rest2 []))

/-- `conf_python = {key: repr(value) for key, value in CONF.items()}`
(lines 387–389). -/
def confRepr (c : Conf) : Conf := c.map (fun p => (p.1, .str p.2.pyRepr))

/-- The render calls `main` makes after prompting (lines 390–396):
template name, the variable mapping passed (read-only), and the target
path; the task runner and Makefile are rendered only when automation
was requested. -/
def renderCalls (c : Conf) (automation : PyVal) : List (String × Conf × String) :=
  [("pelicanconf.py.jinja2", confRepr c, "pelicanconf.py"),
   ("publishconf.py.jinja2", c, "publishconf.py")] ++
  (if automation.truthy then
    [("tasks.py.jinja2", c, "tasks.py"), ("Makefile.jinja2", c, "Makefile")]
  else [])

/-- Assignment never removes a key: every key present before
`CONF[k'] = v` is present afterwards. -/
theorem keepsKeys_set (c : Conf) (k' : String) (v : PyVal) :
    ∀ k, c.has k = true → (c.set k' v).has k = true := by
  intro k h
  unfold Conf.set
  split
  · unfold Conf.has at h ⊢
    rw [List.any_eq_true] at h ⊢
    obtain ⟨p, hp, hpk⟩ := h
    refine ⟨if (p.1 == k') = true then (k', v) else p,
      List.mem_map_of_mem _ hp, ?_⟩
    by_cases hk' : (p.1 == k') = true
    · rw [if_pos hk']
      have h1 : p.1 = k' := by simpa using hk'
      show (k' == k) = true
      rw [← h1]
      exact hpk
    · rw [if_neg hk']
      exact hpk
  · unfold Conf.has at h ⊢
    rw [List.any_eq_true] at h ⊢
    obtain ⟨p, hp, hpk⟩ := h
    exact ⟨p, List.mem_append_left _ hp, hpk⟩

/-- Inversion: a successful `mapv` comes from a success of the base
computation. -/
theorem mapv_ok_inv {α β : Type} {r : StepRes α} {f : α → β} {b : β}
    {rest o : List String} (h : r.mapv f = .ok b rest o) :
    ∃ a, r = .ok a rest o ∧ b = f a := by
  cases r with
  | ok a r1 o1 =>
    simp only [StepRes.mapv] at h
    injection h with h1 h2 h3
    exact ⟨a, by rw [h2, h3], h1.symm⟩
  | pending o1 => simp [StepRes.mapv] at h
  | raised m => simp [StepRes.mapv] at h

/-- Inversion: a successful `andThen` comes from successes of both
parts. -/
theorem andThen_ok_inv {α β : Type} {r : StepRes α}
    {f : α → List String → StepRes β} {b : β} {rest2 o : List String}
    (h : r.andThen f = .ok b rest2 o) :
    ∃ a rest1 o1 o2, r = .ok a rest1 o1 ∧ f a rest1 = .ok b rest2 o2 := by
  cases r with
  | ok a r1 o1 =>
    simp only [StepRes.andThen] at h
    cases hf : f a r1 with
    | ok b2 r2 o2 =>
      rw [hf] at h
      injection h with h1 h2 h3
      exact ⟨a, r1, o1, o2, rfl, by rw [hf, h1, h2]⟩
    | pending o2 => rw [hf] at h; cases h
    | raised m => rw [hf] at h; cases h
  | pending o1 => simp [StepRes.andThen] at h
  | raised m => simp [StepRes.andThen] at h

/-- A step of `main` that never removes settings keys. -/
def StepKeeps (s : ConfStep) : Prop :=
  ∀ c inputs c' rest out, s c inputs = .ok c' rest out →
    ∀ k, c.has k = true → c'.has k = true

/-- Sequencing preserves key preservation. -/
theorem cseq_keeps {s1 s2 : ConfStep} (h1 : StepKeeps s1) (h2 : StepKeeps s2) :
    StepKeeps (cseq s1 s2) := by
  intro c inputs c' rest out h
  obtain ⟨a, r1, o1, o2, ha, hf⟩ := andThen_ok_inv h
  intro k hk
  exact h2 a r1 c' rest o2 hf k (h1 c inputs a r1 o1 ha k hk)

/-- An ask-and-assign step never removes keys. -/
theorem askSetKey_keeps (key q : String) (kind : AnswerKind) (len : Option Nat)
    (dflt : Conf → PyVal) : StepKeeps (askSetKey key q kind len dflt) := by
  intro c inputs c' rest out h
  obtain ⟨v, hv, hc⟩ := mapv_ok_inv h
  rw [hc]
  exact keepsKeys_set c key v

/-- A gated publishing-target block never removes keys. -/
theorem gated_keeps {gq fk : String} {inner : ConfStep} (hin : StepKeeps inner) :
    StepKeeps (gated gq fk inner) := by
  intro c inputs c' rest out h
  obtain ⟨v, r1, o1, o2, ha, hf⟩ := andThen_ok_inv h
  by_cases hv : v.truthy = true
  · rw [if_pos hv] at hf
    intro k hk
    exact hin _ r1 c' rest o2 hf k (keepsKeys_set c fk (.tuple1 (.bool true)) k hk)
  · rw [if_neg hv] at hf
    injection hf with h1 h2 h3
    rw [← h1]
    exact fun k hk => hk

theorem stepBasedir_keeps (env : MainEnv) : StepKeeps (stepBasedir env) := by
  intro c inputs c' rest out h
  obtain ⟨v, hv, hc⟩ := mapv_ok_inv h
  rw [hc]
  exact keepsKeys_set c "basedir" v

theorem stepSiteurl_keeps : StepKeeps stepSiteurl := by
  intro c inputs c' rest out h
  obtain ⟨v, r1, o1, o2, ha, hf⟩ := andThen_ok_inv h
  by_cases hv : v.truthy = true
  · rw [if_pos hv] at hf
    exact askSetKey_keeps _ _ _ _ _ c r1 c' rest o2 hf
  · rw [if_neg hv] at hf
    injection hf with h1 h2 h3
    rw [← h1]
    exact fun k hk => hk

theorem stepPagination_keeps : StepKeeps stepPagination := by
  intro c inputs c' rest out h
  obtain ⟨pr, hpr, hc⟩ := mapv_ok_inv h
  rw [hc]
  intro k hk
  exact keepsKeys_set _ "default_pagination" pr.2 k
    (keepsKeys_set c "with_pagination" pr.1 k hk)

theorem stepTimezone_keeps (env : MainEnv) : StepKeeps (stepTimezone env) := by
  intro c inputs c' rest out h
  obtain ⟨v, hv, hc⟩ := mapv_ok_inv h
  rw [hc]
  exact keepsKeys_set c "timezone" v

theorem githubInner_keeps : StepKeeps githubInner := by
  intro c inputs c' rest out h
  obtain ⟨v, hv, hc⟩ := mapv_ok_inv h
  rw [hc]
  exact keepsKeys_set c "github_pages_branch" _

/-- The whole automation section never removes keys. -/
theorem automationBlocks_keeps : StepKeeps automationBlocks :=
  cseq_keeps (gated_keeps (cseq_keeps (askSetKey_keeps _ _ _ _ _)
      (cseq_keeps (askSetKey_keeps _ _ _ _ _) (askSetKey_keeps _ _ _ _ _))))
    (cseq_keeps (gated_keeps (cseq_keeps (askSetKey_keeps _ _ _ _ _)
        (cseq_keeps (askSetKey_keeps _ _ _ _ _)
          (cseq_keeps (askSetKey_keeps _ _ _ _ _) (askSetKey_keeps _ _ _ _ _)))))
      (cseq_keeps (gated_keeps (askSetKey_keeps _ _ _ _ _))
        (cseq_keeps (gated_keeps (askSetKey_keeps _ _ _ _ _))
          (cseq_keeps (gated_keeps (cseq_keeps (askSetKey_keeps _ _ _ _ _)
              (cseq_keeps (askSetKey_keeps _ _ _ _ _) (askSetKey_keeps _ _ _ _ _))))
            (gated_keeps githubInner_keeps)))))

/-- Building `conf_python` maps values to their `repr` but keeps every
key. -/
theorem confRepr_has (c : Conf) (k : String) : (confRepr c).has k = c.has k := by
  unfold confRepr Conf.has
  induction c with
  | nil => rfl
  | cons p ps ih => simp only [List.map_cons, List.any_cons, ih]

/-- Claim C8: whenever the prompting phase of `main` completes, every
key of the initial defaults table is still present in the final
settings mapping (no key is ever removed), and every variable mapping
passed to the rendering calls afterwards — which only read the mapping —
still contains every one of those keys. -/
theorem conf_keys_never_removed (env : MainEnv) (dl dt : String)
    (inputs : List String) (conf : Conf) (a : PyVal) (rest out : List String)
    (h : promptPhase env (CONF dl dt) inputs = .ok (conf, a) rest out) :
    (∀ k, (CONF dl dt).has k = true → conf.has k = true) ∧
    (∀ call ∈ renderCalls conf a, ∀ k, (CONF dl dt).has k = true →
      (call.2.1).has k = true) := by
  have hsteps : StepKeeps (cseq (stepBasedir env)
      (cseq (stepSitename env)
        (cseq (stepAuthor env)
          (cseq (stepLang env)
            (cseq stepSiteurl (cseq stepPagination (stepTimezone env))))))) :=
    cseq_keeps (stepBasedir_keeps env)
      (cseq_keeps (askSetKey_keeps _ _ _ _ _)
        (cseq_keeps (askSetKey_keeps _ _ _ _ _)
          (cseq_keeps (askSetKey_keeps _ _ _ _ _)
            (cseq_keeps stepSiteurl_keeps
              (cseq_keeps stepPagination_keeps (stepTimezone_keeps env))))))
  unfold promptPhase at h
  obtain ⟨c1, r1, o1, o2, h1, h2⟩ := andThen_ok_inv h
  obtain ⟨av, r2, o3, o4, h3, h4⟩ := andThen_ok_inv h2
  have kk1 := hsteps (CONF dl dt) inputs c1 r1 o1 h1
  have kkconf : ∀ k, (CONF dl dt).has k = true → conf.has k = true := by
    by_cases hv : av.truthy = true
    · rw [if_pos hv] at h4
      obtain ⟨c2, hc2, heq⟩ := mapv_ok_inv h4
      have kk2 := automationBlocks_keeps c1 r2 c2 _ _ hc2
      have hce : conf = c2 := congrArg Prod.fst heq
      rw [hce]
      intro k hk
      exact kk2 k (kk1 k hk)
    · rw [if_neg hv] at h4
      injection h4 with he1 he2 he3
      have hce : conf = c1 := congrArg Prod.fst he1.symm
      rw [hce]
      exact kk1
  refine ⟨kkconf, ?_⟩
  intro call hcall k hk
  by_cases ha : a.truthy = true <;> simp [renderCalls, ha] at hcall
  · rcases hcall with hc | hc | hc | hc <;> rw [hc]
    · show (confRepr conf).has k = true
      rw [confRepr_has]
      exact kkconf k hk
    all_goals exact kkconf k hk
  · rcases hcall with hc | hc <;> rw [hc]
    · show (confRepr conf).has k = true
      rw [confRepr_has]
      exact kkconf k hk
    · exact kkconf k hk

/-- A demo environment: timezone database `["UTC"]`, no command-line
flags, marker file present and pointing at a project directory. -/
def demoEnv : MainEnv :=
  ⟨["UTC"], Option.none, Option.none, Option.none, _DEFAULT_PATH, true,
    "/home/ana/blog\n", id⟩

/-- The settings mapping produced by the demo run of the witness below. -/
def demoConf : Conf :=
  [("pelican", .str "pelican"),
   ("pelicanopts", .str ""),
   ("basedir", .str "/home/ana/blog"),
   ("ftp_host", .str "localhost"),
   ("ftp_user", .str "anonymous"),
   ("ftp_target_dir", .str "/"),
   ("ssh_host", .str "localhost"),
   ("ssh_port", .int 22),
   ("ssh_user", .str "root"),
   ("ssh_target_dir", .str "/var/www"),
   ("s3_bucket", .str "my_s3_bucket"),
   ("cloudfiles_username", .str "my_rackspace_username"),
   ("cloudfiles_api_key", .str "my_rackspace_api_key"),
   ("cloudfiles_container", .str "my_cloudfiles_container"),
   ("dropbox_dir", .str "~/Dropbox/Public/"),
   ("github_pages_branch", .str "gh-pages"),
   ("default_pagination", .bool false),
   ("siteurl", .str ""),
   ("lang", .str "pt"),
   ("timezone", .str "UTC"),
   ("sitename", .str "Meu Blog"),
   ("author", .str "Ana"),
   ("with_pagination", .bool false)]

/-- Witness for `conf_keys_never_removed`: a complete run (title
"Meu Blog", author "Ana", language defaulted, no URL prefix, pagination
off, timezone "utc", automation off) ends with every initial key still
present. -/
theorem conf_keys_never_removed_witness :
    promptPhase demoEnv (CONF "pt" "UTC")
        ["Meu Blog", "Ana", "", "n", "n", "utc", "n"] =
      .ok (demoConf, .bool false) []
        ["Usando o projeto jã associado a esse virtual environment. Will save to:\n/home/ana/blog\n",
         "> Qual o titulo de seu novo site? ",
         "> Quem é o autor desse site? ",
         "> Qual a lingua padrão desse site? [pt] ",
         "> Deseja especificar um prefixo para URL? e.g., https://exemplo.com   (Y/n) ",
         "> Deseja ativar a numeração das paginas dos artigos? (Y/n) ",
         "> Qual a sua time zone? [UTC] ",
         "> Você deseja gerar um task.py/Makefile para autoamtizar a geração e publicação? (Y/n) "] ∧
    demoConf.has "ssh_port" = true ∧ demoConf.has "dropbox_dir" = true := by
  have h : promptPhase demoEnv (CONF "pt" "UTC")
      ["Meu Blog", "Ana", "", "n", "n", "utc", "n"] =
    .ok (demoConf, .bool false) []
      ["Usando o projeto jã associado a esse virtual environment. Will save to:\n/home/ana/blog\n",
       "> Qual o titulo de seu novo site? ",
       "> Quem é o autor desse site? ",
       "> Qual a lingua padrão desse site? [pt] ",
       "> Deseja especificar um prefixo para URL? e.g., https://exemplo.com   (Y/n) ",
       "> Deseja ativar a numeração das paginas dos artigos? (Y/n) ",
       "> Qual a sua time zone? [UTC] ",
       "> Você deseja gerar um task.py/Makefile para autoamtizar a geração e publicação? (Y/n) "] := by
    decide
  have kk := (conf_keys_never_removed demoEnv "pt" "UTC"
    ["Meu Blog", "Ana", "", "n", "n", "utc", "n"] demoConf (.bool false) [] _ h).1
  exact ⟨h, kk "ssh_port" (by decide), kk "dropbox_dir" (by decide)⟩
